import Mathlib

/-!
Shallow embedding of src/examples/TextToSpeech.XttsDemo/python/xtts_generate.py.

The script is a linear command-line driver: a module-level import guard,
argument parsing, existence checks on three input paths, then four delegated
steps (model loading, conditioning-latent computation, speech synthesis,
audio writing) in sequence, ending with a SUCCESS line on stderr.

Modelling choices:
- A run is a pure function producing a `RunResult`: the ordered list of
  observable events (stderr lines, external-library calls, the WAV write)
  together with the process exit code.
- The external TTS library (torch, TTS.tts) is out of scope for the
  repository; it is supplied as an `ExtLib` structure of total functions and
  an opaque `Model` record.  A run of the embedding corresponds to a run of
  the script in which no library call raises; the script itself installs no
  handler, so library failures simply abort the process.
- The several library calls inside `load_model` (config load, init,
  checkpoint load, torch.load, load_state_dict, to(device), eval()) are each
  recorded as their own trace event, but the resulting model object is
  produced by the single abstract function `ExtLib.load_model_impl`.
- Python floats are modelled as `Rat` (the defaults 0.75, 3.0, 0.85 are
  exactly representable and the script never computes with them).
- argparse is modelled by `parseArgs` over a `CmdLine` record of optional,
  already type-coerced flag values; argparse usage errors (missing required
  flag, invalid `--device` choice) exit with code 2 and are modelled as
  `Except.error 2` (the usage text argparse prints is not modelled).
- Tensors are modelled by an explicit shape list plus flattened data, which
  is all `save_audio` inspects (`ndim` and `unsqueeze(0)`).
-/

namespace XttsGenerate

/-- Conditioning latent returned by get_conditioning_latents (opaque payload). -/
abbrev GptCondLatent := List Rat

/-- Speaker embedding returned by get_conditioning_latents (opaque payload). -/
abbrev SpeakerEmbedding := List Rat

/-- A torch tensor, modelled by its shape and flattened data; `save_audio`
only inspects the number of dimensions and prepends an axis. -/
structure Tensor where
  shape : List Nat
  data : List Rat
deriving DecidableEq

/-- torch Tensor.ndim: the number of axes. -/
def Tensor.ndim (t : Tensor) : Nat := t.shape.length

/-- torch Tensor.unsqueeze(0): prepend a length-1 axis. -/
def Tensor.unsqueeze0 (t : Tensor) : Tensor := { shape := 1 :: t.shape, data := t.data }

/-- The dictionary returned by model.inference; main reads out["wav"] and
converts it with torch.tensor (identity here, the payload is already a
tensor). -/
structure AudioOut where
  wav : Tensor
deriving DecidableEq

/-- The fields of the loaded XttsConfig that compute_speaker_latents reads. -/
structure XttsConfig where
  gpt_cond_len : Int
  max_ref_len : Int
  sound_norm_refs : Bool
deriving DecidableEq

/-- The loaded model object: its config plus the two library entry points the
script calls on it, supplied abstractly as total functions. -/
structure Model where
  config : XttsConfig
  get_conditioning_latents : List String → Int → Int → Bool → GptCondLatent × SpeakerEmbedding
  inference : String → String → GptCondLatent → SpeakerEmbedding → Rat → Rat → Int → Rat → AudioOut

/-- The external library behaviour behind load_model: given base model path,
finetuned checkpoint path and device it yields the loaded model object. -/
structure ExtLib where
  load_model_impl : String → String → String → Model

/-- One observable step of a run: a stderr line, an external-library call, or
the WAV write performed by torchaudio.save. -/
inductive Event where
  | stderr (line : String)
  | libLoadConfig (config_path : String)
  | libInitFromConfig
  | libLoadCheckpoint (checkpoint_dir : String)
  | libTorchLoad (path device : String)
  | libLoadStateDict
  | libModelTo (device : String)
  | libModelEvalStep
  | libGetLatents (audio_path : List String) (gpt_cond_len max_ref_length : Int) (sound_norm_refs : Bool)
  | libInference (text language : String) (temperature repetition_penalty : Rat) (top_k : Int) (top_p : Rat)
  | wavWrite (path : String) (shape : List Nat) (data : List Rat) (sample_rate : Nat)
deriving DecidableEq

/-- True for every event that is a call into the external library or a file
write, false for plain stderr output. -/
def Event.isLibCall : Event → Bool
  | .stderr _ => false
  | _ => true

/-- Tag each delegated step with its position in the documented pipeline:
0 = model loading, 1 = conditioning-latent computation, 2 = synthesis,
3 = audio writing; stderr lines carry no tag. -/
def Event.stepTag : Event → Option Nat
  | .stderr _ => none
  | .libLoadConfig _ => some 0
  | .libInitFromConfig => some 0
  | .libLoadCheckpoint _ => some 0
  | .libTorchLoad _ _ => some 0
  | .libLoadStateDict => some 0
  | .libModelTo _ => some 0
  | .libModelEvalStep => some 0
  | .libGetLatents _ _ _ _ => some 1
  | .libInference _ _ _ _ _ _ => some 2
  | .wavWrite _ _ _ _ => some 3

/-- The delegated-step tags of a trace, in order. -/
def stepTags (evs : List Event) : List Nat := evs.filterMap Event.stepTag

/-- The shapes written by wavWrite events of a trace, in order. -/
def wavWriteShapes (evs : List Event) : List (List Nat) :=
  evs.filterMap fun e =>
    match e with
    | .wavWrite _ sh _ _ => some sh
    | _ => none

/-- The sample rates of wavWrite events of a trace, in order. -/
def wavWriteRates (evs : List Event) : List Nat :=
  evs.filterMap fun e =>
    match e with
    | .wavWrite _ _ _ r => some r
    | _ => none

/-- os.path.join for the one use in load_model (joining a directory with the
relative name "config.json"). -/
def os_path_join (a b : String) : String := a ++ "/" ++ b

/-- load_model (lines 24-46 of xtts_generate.py): emits its progress lines and
library-call events; the resulting model object comes from the abstract
library.  In the source, device defaults to "cpu"; main always passes it. -/
def load_model (lib : ExtLib) (base_model_path finetuned_checkpoint device : String) :
    List Event × Model :=
  ([Event.stderr ("Loading base model from: " ++ base_model_path),
    Event.libLoadConfig (os_path_join base_model_path "config.json"),
    Event.libInitFromConfig,
    Event.libLoadCheckpoint base_model_path,
    Event.stderr ("Loading finetuned weights from: " ++ finetuned_checkpoint),
    Event.libTorchLoad finetuned_checkpoint device,
    Event.libLoadStateDict,
    Event.libModelTo device,
    Event.libModelEvalStep,
    Event.stderr ("Model loaded on device: " ++ device)],
   lib.load_model_impl base_model_path finetuned_checkpoint device)

/-- compute_speaker_latents (lines 49-60): note the device parameter is
accepted but never used in the body, exactly as in the source.  In the
source, device defaults to "cpu"; main always passes it. -/
def compute_speaker_latents (model : Model) (reference_audio_path : String)
    (device : String) : List Event × (GptCondLatent × SpeakerEmbedding) :=
  ([Event.stderr ("Computing speaker latents from: " ++ reference_audio_path),
    Event.libGetLatents [reference_audio_path] model.config.gpt_cond_len
      model.config.max_ref_len model.config.sound_norm_refs],
   model.get_conditioning_latents [reference_audio_path] model.config.gpt_cond_len
     model.config.max_ref_len model.config.sound_norm_refs)

/-- generate_speech (lines 63-88): a pass-through call to model.inference with
the caller-supplied parameters.  The source declares keyword defaults
(language "cs", temperature 0.75, repetition penalty 3.0, top-k 50,
top-p 0.85); main always passes every parameter explicitly. -/
def generate_speech (model : Model) (text : String) (gpt_cond_latent : GptCondLatent)
    (speaker_embedding : SpeakerEmbedding) (language : String) (temperature : Rat)
    (repetition_penalty : Rat) (top_k : Int) (top_p : Rat) : List Event × AudioOut :=
  ([Event.stderr ("Generating speech for text: " ++ text.take 50 ++ "..."),
    Event.libInference text language temperature repetition_penalty top_k top_p],
   model.inference text language gpt_cond_latent speaker_embedding temperature
     repetition_penalty top_k top_p)

/-- save_audio with an explicit sample rate (lines 91-104): the buffer is
already a tensor here (the isinstance conversion is the identity in this
model); a 1-dimensional tensor gets a leading channel axis, any other rank
is passed to torchaudio.save unchanged. -/
def save_audio_rate (audio_tensor : Tensor) (output_path : String) (sample_rate : Nat) :
    List Event :=
  let t := if audio_tensor.ndim = 1 then audio_tensor.unsqueeze0 else audio_tensor
  [Event.wavWrite output_path t.shape t.data sample_rate,
   Event.stderr ("Audio saved to: " ++ output_path)]

/-- save_audio at its declared default sample_rate = 24000; main calls
save_audio without overriding the rate, which is this function. -/
def save_audio (audio_tensor : Tensor) (output_path : String) : List Event :=
  save_audio_rate audio_tensor output_path 24000

/-- The command line as argparse sees it: for each flag, the (already
type-coerced) value if supplied, else none. -/
structure CmdLine where
  base_model? : Option String
  finetuned? : Option String
  reference_audio? : Option String
  text? : Option String
  output? : Option String
  language? : Option String
  temperature? : Option Rat
  repetition_penalty? : Option Rat
  top_k? : Option Int
  top_p? : Option Rat
  device? : Option String
deriving DecidableEq

/-- The parsed argument record (argparse Namespace), lines 107-176. -/
structure Args where
  base_model : String
  finetuned : String
  reference_audio : String
  text : String
  output : String
  language : String
  temperature : Rat
  repetition_penalty : Rat
  top_k : Int
  top_p : Rat
  device : String
deriving DecidableEq

/-- The choices list of the --device flag (line 171). -/
def deviceChoices : List String := ["cpu", "cuda"]

/-- argparse semantics for this parser: the five required flags must be
present, --device must be one of its choices, the optional flags fall back
to their declared defaults; any usage error exits with argparse's code 2. -/
def parseArgs (c : CmdLine) : Except Nat Args :=
  match c.base_model?, c.finetuned?, c.reference_audio?, c.text?, c.output? with
  | some bm, some ft, some ra, some tx, some outp =>
    let dev := c.device?.getD "cpu"
    if dev ∈ deviceChoices then
      Except.ok
        { base_model := bm, finetuned := ft, reference_audio := ra, text := tx,
          output := outp, language := c.language?.getD "cs",
          temperature := c.temperature?.getD 0.75,
          repetition_penalty := c.repetition_penalty?.getD 3.0,
          top_k := c.top_k?.getD 50, top_p := c.top_p?.getD 0.85, device := dev }
    else Except.error 2
  | _, _, _, _, _ => Except.error 2

/-- The file-system facts the script consults: os.path.exists. -/
structure Env where
  pathExists : String → Bool

/-- Outcome of a run: the ordered observable events and the exit code. -/
structure RunResult where
  events : List Event
  exitCode : Nat
deriving DecidableEq

/-- main (lines 107-216): parse, validate the three input paths in order with
exit 1 on the first missing one, then load model, compute latents, generate
speech, save audio, and print SUCCESS; falling off the end exits 0. -/
def main (env : Env) (lib : ExtLib) (c : CmdLine) : RunResult :=
  match parseArgs c with
  | Except.error code => { events := [], exitCode := code }
  | Except.ok args =>
    if env.pathExists args.base_model = false then
      { events := [Event.stderr ("ERROR: Base model not found: " ++ args.base_model)],
        exitCode := 1 }
    else if env.pathExists args.finetuned = false then
      { events := [Event.stderr ("ERROR: Finetuned checkpoint not found: " ++ args.finetuned)],
        exitCode := 1 }
    else if env.pathExists args.reference_audio = false then
      { events := [Event.stderr ("ERROR: Reference audio not found: " ++ args.reference_audio)],
        exitCode := 1 }
    else
      let lm := load_model lib args.base_model args.finetuned args.device
      let cl := compute_speaker_latents lm.2 args.reference_audio args.device
      let gs := generate_speech lm.2 args.text cl.2.1 cl.2.2 args.language
        args.temperature args.repetition_penalty args.top_k args.top_p
      let sv := save_audio gs.2.wav args.output
      { events := lm.1 ++ cl.1 ++ gs.1 ++ sv ++ [Event.stderr "SUCCESS"], exitCode := 0 }

/-- The whole process including the module-level import guard (lines 14-21):
if the third-party packages cannot be imported, print the installation hint
and exit 1 before argparse ever runs; otherwise run main. -/
def run_script (deps_installed : Bool) (env : Env) (lib : ExtLib) (c : CmdLine) : RunResult :=
  if deps_installed then main env lib c
  else
    { events := [Event.stderr "ERROR: Required packages not installed. Install with:",
                 Event.stderr "pip install TTS torch"],
      exitCode := 1 }

/-- A concrete model object used to instantiate witnesses. -/
def model0 : Model :=
  { config := { gpt_cond_len := 30, max_ref_len := 60, sound_norm_refs := false },
    get_conditioning_latents := fun _ _ _ _ => ([1], [2]),
    inference := fun _ _ _ _ _ _ _ _ => { wav := { shape := [2], data := [1/2, 1/4] } } }

/-- A concrete external library used to instantiate witnesses. -/
def lib0 : ExtLib := { load_model_impl := fun _ _ _ => model0 }

/-- An environment in which no path exists. -/
def env0 : Env := { pathExists := fun _ => false }

/-- An environment in which every path exists. -/
def envAll : Env := { pathExists := fun _ => true }

/-- An environment in which every path but the output path of c9 exists. -/
def envOut : Env := { pathExists := fun s => !(s == "/no/dir/out.wav") }

/-- A concrete command line: all required flags supplied, all optional flags
omitted. -/
def c0 : CmdLine :=
  { base_model? := some "models/base", finetuned? := some "ft.pth",
    reference_audio? := some "ref.wav", text? := some "Ahoj", output? := some "out.wav",
    language? := none, temperature? := none, repetition_penalty? := none,
    top_k? := none, top_p? := none, device? := none }

/-- The parse result of c0. -/
def args0 : Args :=
  { base_model := "models/base", finetuned := "ft.pth", reference_audio := "ref.wav",
    text := "Ahoj", output := "out.wav", language := "cs", temperature := 0.75,
    repetition_penalty := 3.0, top_k := 50, top_p := 0.85, device := "cpu" }

/-- c0 pointed at an output path whose parent directory does not exist. -/
def c9 : CmdLine := { c0 with output? := some "/no/dir/out.wav" }

/-- The parse result of c9. -/
def args9 : Args := { args0 with output := "/no/dir/out.wav" }

/-- c0 with an invalid --device value. -/
def cBad : CmdLine := { c0 with device? := some "tpu" }

/-- A concrete 1-dimensional audio tensor. -/
def t0 : Tensor := { shape := [3], data := [1, 2, 3] }

/-- Helper: a supplied --device value outside the choices list makes parsing
fail with argparse's usage-error code 2. -/
theorem parseArgs_invalid_device {c : CmdLine} {d : String} (hd : c.device? = some d)
    (h1 : d ≠ "cpu") (h2 : d ≠ "cuda") : parseArgs c = Except.error 2 := by
  rcases hbm : c.base_model? with _ | bm <;>
  rcases hft : c.finetuned? with _ | ft <;>
  rcases hra : c.reference_audio? with _ | ra <;>
  rcases htx : c.text? with _ | tx <;>
  rcases hout : c.output? with _ | outp <;>
    simp [parseArgs, hbm, hft, hra, htx, hout, hd, deviceChoices, h1, h2]

/-- Characterization of successful argument parsing: each required flag was
supplied with exactly the parsed value, each optional field is the supplied
value or the declared default, and the device is one of the two choices. -/
theorem parseArgs_ok_fields {c : CmdLine} {args : Args} (h : parseArgs c = Except.ok args) :
    c.base_model? = some args.base_model ∧ c.finetuned? = some args.finetuned ∧
    c.reference_audio? = some args.reference_audio ∧ c.text? = some args.text ∧
    c.output? = some args.output ∧ args.language = c.language?.getD "cs" ∧
    args.temperature = c.temperature?.getD 0.75 ∧
    args.repetition_penalty = c.repetition_penalty?.getD 3.0 ∧
    args.top_k = c.top_k?.getD 50 ∧ args.top_p = c.top_p?.getD 0.85 ∧
    args.device = c.device?.getD "cpu" ∧ (args.device = "cpu" ∨ args.device = "cuda") := by
  rcases hbm : c.base_model? with _ | bm <;>
  rcases hft : c.finetuned? with _ | ft <;>
  rcases hra : c.reference_audio? with _ | ra <;>
  rcases htx : c.text? with _ | tx <;>
  rcases hout : c.output? with _ | outp <;>
    simp only [parseArgs, hbm, hft, hra, htx, hout] at h <;>
    first
    | exact Except.noConfusion h
    | skip
  split at h
  · rename_i hdev
    injection h with h
    subst h
    refine ⟨rfl, rfl, rfl, rfl, rfl, rfl, rfl, rfl, rfl, rfl, rfl, ?_⟩
    simpa [deviceChoices] using hdev
  · exact Except.noConfusion h

/-- Full unfolding of a run that passes argument parsing and all three path
checks: the exact event trace and exit code 0. -/
theorem main_ok_trace (env : Env) (lib : ExtLib) (c : CmdLine) (args : Args)
    (hp : parseArgs c = Except.ok args)
    (hb : env.pathExists args.base_model = true)
    (hf : env.pathExists args.finetuned = true)
    (hr : env.pathExists args.reference_audio = true) :
    main env lib c =
      (let model := lib.load_model_impl args.base_model args.finetuned args.device
       let lat := model.get_conditioning_latents [args.reference_audio]
         model.config.gpt_cond_len model.config.max_ref_len model.config.sound_norm_refs
       let out := model.inference args.text args.language lat.1 lat.2
         args.temperature args.repetition_penalty args.top_k args.top_p
       let t2 := if out.wav.ndim = 1 then out.wav.unsqueeze0 else out.wav
       { events :=
           [Event.stderr ("Loading base model from: " ++ args.base_model),
            Event.libLoadConfig (os_path_join args.base_model "config.json"),
            Event.libInitFromConfig,
            Event.libLoadCheckpoint args.base_model,
            Event.stderr ("Loading finetuned weights from: " ++ args.finetuned),
            Event.libTorchLoad args.finetuned args.device,
            Event.libLoadStateDict,
            Event.libModelTo args.device,
            Event.libModelEvalStep,
            Event.stderr ("Model loaded on device: " ++ args.device),
            Event.stderr ("Computing speaker latents from: " ++ args.reference_audio),
            Event.libGetLatents [args.reference_audio] model.config.gpt_cond_len
              model.config.max_ref_len model.config.sound_norm_refs,
            Event.stderr ("Generating speech for text: " ++ args.text.take 50 ++ "..."),
            Event.libInference args.text args.language args.temperature
              args.repetition_penalty args.top_k args.top_p,
            Event.wavWrite args.output t2.shape t2.data 24000,
            Event.stderr ("Audio saved to: " ++ args.output),
            Event.stderr "SUCCESS"],
         exitCode := 0 }) := by
  unfold main
  rw [hp]
  simp [hb, hf, hr, load_model, compute_speaker_latents, generate_speech,
    save_audio, save_audio_rate]

/-- C1: for every invocation in which any one of the three required input
paths (base model directory, finetuned checkpoint, reference audio file) does
not exist, the process exits with code 1, the single stderr message names
that specific path (the first missing one in check order), and no
model-loading or other library step is attempted before the exit. -/
theorem C1_missing_input_path (env : Env) (lib : ExtLib) (c : CmdLine) (args : Args)
    (hp : parseArgs c = Except.ok args)
    (h : env.pathExists args.base_model = false ∨ env.pathExists args.finetuned = false ∨
         env.pathExists args.reference_audio = false) :
    (main env lib c).exitCode = 1 ∧
    ((main env lib c).events.all fun e => !e.isLibCall) = true ∧
    (env.pathExists args.base_model = false →
      (main env lib c).events =
        [Event.stderr ("ERROR: Base model not found: " ++ args.base_model)]) ∧
    (env.pathExists args.base_model = true → env.pathExists args.finetuned = false →
      (main env lib c).events =
        [Event.stderr ("ERROR: Finetuned checkpoint not found: " ++ args.finetuned)]) ∧
    (env.pathExists args.base_model = true → env.pathExists args.finetuned = true →
      env.pathExists args.reference_audio = false →
      (main env lib c).events =
        [Event.stderr ("ERROR: Reference audio not found: " ++ args.reference_audio)]) := by
  unfold main
  rw [hp]
  cases hb : env.pathExists args.base_model
  · simp [hb, Event.isLibCall]
  · cases hf : env.pathExists args.finetuned
    · simp [hb, hf, Event.isLibCall]
    · cases hr : env.pathExists args.reference_audio
      · simp [hb, hf, hr, Event.isLibCall]
      · rw [hb, hf, hr] at h
        simp at h

/-- C1 witness: with every path missing from the file system, the run on the
concrete command line c0 exits 1 naming the base model path, with no library
step. -/
theorem C1_missing_input_path_witness :
    parseArgs c0 = Except.ok args0 ∧
    (env0.pathExists args0.base_model = false ∨ env0.pathExists args0.finetuned = false ∨
     env0.pathExists args0.reference_audio = false) ∧
    ((main env0 lib0 c0).exitCode = 1 ∧
     ((main env0 lib0 c0).events.all fun e => !e.isLibCall) = true ∧
     (env0.pathExists args0.base_model = false →
       (main env0 lib0 c0).events =
         [Event.stderr ("ERROR: Base model not found: " ++ args0.base_model)]) ∧
     (env0.pathExists args0.base_model = true → env0.pathExists args0.finetuned = false →
       (main env0 lib0 c0).events =
         [Event.stderr ("ERROR: Finetuned checkpoint not found: " ++ args0.finetuned)]) ∧
     (env0.pathExists args0.base_model = true → env0.pathExists args0.finetuned = true →
       env0.pathExists args0.reference_audio = false →
       (main env0 lib0 c0).events =
         [Event.stderr ("ERROR: Reference audio not found: " ++ args0.reference_audio)])) :=
  ⟨rfl, by decide, C1_missing_input_path env0 lib0 c0 args0 rfl (by decide)⟩

/-- C3: when the third-party packages cannot be imported, the process exits
with code 1 after printing the installation hint to stderr, and this happens
before argument parsing or path validation: the outcome is the same for
every environment, library and command line. -/
theorem C3_missing_dependency (env env' : Env) (lib lib' : ExtLib) (c c' : CmdLine) :
    run_script false env lib c = run_script false env' lib' c' ∧
    (run_script false env lib c).exitCode = 1 ∧
    (run_script false env lib c).events =
      [Event.stderr "ERROR: Required packages not installed. Install with:",
       Event.stderr "pip install TTS torch"] :=
  ⟨rfl, rfl, rfl⟩

/-- C6: with all optional flags omitted, parsing yields language "cs",
temperature 0.75, repetition penalty 3.0, top-k 50, top-p 0.85 and device
"cpu"; every successful parse has device "cpu" or "cuda"; and any other
supplied device value makes parsing fail with the usage-error code 2. -/
theorem C6_defaults_and_device_choices (bm ft ra tx outp : String) :
    parseArgs
      { base_model? := some bm, finetuned? := some ft, reference_audio? := some ra,
        text? := some tx, output? := some outp, language? := none, temperature? := none,
        repetition_penalty? := none, top_k? := none, top_p? := none, device? := none } =
      Except.ok
        { base_model := bm, finetuned := ft, reference_audio := ra, text := tx,
          output := outp, language := "cs", temperature := 0.75, repetition_penalty := 3.0,
          top_k := 50, top_p := 0.85, device := "cpu" } ∧
    (∀ (c : CmdLine) (args : Args), parseArgs c = Except.ok args →
      args.device = "cpu" ∨ args.device = "cuda") ∧
    (∀ (c : CmdLine) (d : String), c.device? = some d → d ≠ "cpu" → d ≠ "cuda" →
      parseArgs c = Except.error 2) := by
  refine ⟨rfl, ?_, ?_⟩
  · intro c args h
    exact (parseArgs_ok_fields h).2.2.2.2.2.2.2.2.2.2.2
  · intro c d hd h1 h2
    exact parseArgs_invalid_device hd h1 h2

/-- C8: compute_speaker_latents is independent of its device parameter — for
any two device strings and identical model and reference audio, it emits the
same library call with the same arguments and returns the same result. -/
theorem C8_latents_device_independent (model : Model) (reference_audio_path d1 d2 : String) :
    compute_speaker_latents model reference_audio_path d1 =
      compute_speaker_latents model reference_audio_path d2 :=
  rfl

/-- Helper: every WAV write any run of main performs uses sample rate 24000,
because main calls save_audio without overriding its 24000 default. -/
theorem main_writes_24k (env : Env) (lib : ExtLib) (c : CmdLine) :
    ((wavWriteRates (main env lib c).events).all fun r => r == 24000) = true := by
  unfold main
  rcases hp : parseArgs c with code | args
  · simp [hp, wavWriteRates]
  · cases hb : env.pathExists args.base_model
    · simp [hp, hb, wavWriteRates]
    · cases hf : env.pathExists args.finetuned
      · simp [hp, hb, hf, wavWriteRates]
      · cases hr : env.pathExists args.reference_audio
        · simp [hp, hb, hf, hr, wavWriteRates]
        · simp [hp, hb, hf, hr, wavWriteRates, load_model, compute_speaker_latents,
            generate_speech, save_audio, save_audio_rate]

/-- C2 counterexample: a rank-3 sample buffer passed to the audio writer is
written with its 3-dimensional layout unchanged, so not every buffer is
normalized to a two-dimensional (channel, sample) layout before writing. -/
theorem C2_buffer_not_always_2d :
    wavWriteShapes (save_audio { shape := [1, 1, 2], data := [1, 2] } "out.wav") =
      [[1, 1, 2]] ∧ ([1, 1, 2] : List Nat).length ≠ 2 :=
  ⟨rfl, by decide⟩

/-- C2 (amended): every 1- or 2-dimensional sample buffer passed to the audio
writer is written in a two-dimensional (channel, sample) layout — a leading
channel axis is added to 1-D buffers — at the writer's default sample rate of
24000 Hz (buffers of any other rank are written with their layout unchanged);
and every WAV write the driver performs uses sample rate 24000 regardless of
the command-line input. -/
theorem C2_save_audio_layout_and_rate (t : Tensor) (path : String) (env : Env)
    (lib : ExtLib) (c : CmdLine) (h : t.ndim = 1 ∨ t.ndim = 2) :
    ((wavWriteShapes (save_audio t path)).all fun sh => sh.length == 2) = true ∧
    wavWriteRates (save_audio t path) = [24000] ∧
    ((wavWriteRates (main env lib c).events).all fun r => r == 24000) = true := by
  refine ⟨?_, ?_, main_writes_24k env lib c⟩
  · rcases h with h | h <;> simp [Tensor.ndim] at h <;>
      simp [save_audio, save_audio_rate, wavWriteShapes, Tensor.unsqueeze0, Tensor.ndim, h]
  · rcases h with h | h <;> simp [Tensor.ndim] at h <;>
      simp [save_audio, save_audio_rate, wavWriteRates, Tensor.unsqueeze0, Tensor.ndim, h]

/-- C2 witness: the concrete 1-D buffer t0 is written as a 2-D tensor at
24000 Hz, and the run on c0 only writes at 24000 Hz. -/
theorem C2_save_audio_layout_and_rate_witness :
    (t0.ndim = 1 ∨ t0.ndim = 2) ∧
    (((wavWriteShapes (save_audio t0 "o.wav")).all fun sh => sh.length == 2) = true ∧
     wavWriteRates (save_audio t0 "o.wav") = [24000] ∧
     ((wavWriteRates (main envAll lib0 c0).events).all fun r => r == 24000) = true) :=
  ⟨by decide, C2_save_audio_layout_and_rate t0 "o.wav" envAll lib0 c0 (by decide)⟩

/-- C4: for every invocation that passes path validation, the four delegated
steps occur in strict order — model loading (tag 0), conditioning-latent
computation (tag 1), synthesis (tag 2), audio write (tag 3) — and each
step's output feeds the next: the latent call is made on the loaded model
with its config values, the inference event carries the parsed parameters,
and the written samples are the wav data of the inference output computed
from the loaded model and its latents. -/
theorem C4_strict_sequence (env : Env) (lib : ExtLib) (c : CmdLine) (args : Args)
    (hp : parseArgs c = Except.ok args)
    (hb : env.pathExists args.base_model = true)
    (hf : env.pathExists args.finetuned = true)
    (hr : env.pathExists args.reference_audio = true) :
    (stepTags (main env lib c).events).dedup = [0, 1, 2, 3] ∧
    (let model := lib.load_model_impl args.base_model args.finetuned args.device
     let lat := model.get_conditioning_latents [args.reference_audio]
       model.config.gpt_cond_len model.config.max_ref_len model.config.sound_norm_refs
     let out := model.inference args.text args.language lat.1 lat.2
       args.temperature args.repetition_penalty args.top_k args.top_p
     let t2 := if out.wav.ndim = 1 then out.wav.unsqueeze0 else out.wav
     Event.libGetLatents [args.reference_audio] model.config.gpt_cond_len
         model.config.max_ref_len model.config.sound_norm_refs ∈ (main env lib c).events ∧
     Event.libInference args.text args.language args.temperature args.repetition_penalty
         args.top_k args.top_p ∈ (main env lib c).events ∧
     Event.wavWrite args.output t2.shape t2.data 24000 ∈ (main env lib c).events) := by
  rw [main_ok_trace env lib c args hp hb hf hr]
  refine ⟨?_, ?_, ?_, ?_⟩
  · simp [stepTags, Event.stepTag]
  · simp
  · simp
  · simp

/-- C4 witness: the concrete all-paths-present run on c0 performs the four
steps in order with the data flowing through. -/
theorem C4_strict_sequence_witness :
    parseArgs c0 = Except.ok args0 ∧
    envAll.pathExists args0.base_model = true ∧
    envAll.pathExists args0.finetuned = true ∧
    envAll.pathExists args0.reference_audio = true ∧
    ((stepTags (main envAll lib0 c0).events).dedup = [0, 1, 2, 3] ∧
     (let model := lib0.load_model_impl args0.base_model args0.finetuned args0.device
      let lat := model.get_conditioning_latents [args0.reference_audio]
        model.config.gpt_cond_len model.config.max_ref_len model.config.sound_norm_refs
      let out := model.inference args0.text args0.language lat.1 lat.2
        args0.temperature args0.repetition_penalty args0.top_k args0.top_p
      let t2 := if out.wav.ndim = 1 then out.wav.unsqueeze0 else out.wav
      Event.libGetLatents [args0.reference_audio] model.config.gpt_cond_len
          model.config.max_ref_len model.config.sound_norm_refs ∈ (main envAll lib0 c0).events ∧
      Event.libInference args0.text args0.language args0.temperature args0.repetition_penalty
          args0.top_k args0.top_p ∈ (main envAll lib0 c0).events ∧
      Event.wavWrite args0.output t2.shape t2.data 24000 ∈ (main envAll lib0 c0).events)) :=
  ⟨rfl, rfl, rfl, rfl, C4_strict_sequence envAll lib0 c0 args0 rfl rfl rfl rfl⟩

/-- C5: for every invocation in which all four delegated steps complete (in
this total-library model, every invocation that passes path validation), the
last stderr line is exactly "SUCCESS" and the process exits with code 0. -/
theorem C5_success_line (env : Env) (lib : ExtLib) (c : CmdLine) (args : Args)
    (hp : parseArgs c = Except.ok args)
    (hb : env.pathExists args.base_model = true)
    (hf : env.pathExists args.finetuned = true)
    (hr : env.pathExists args.reference_audio = true) :
    (main env lib c).events.getLast? = some (Event.stderr "SUCCESS") ∧
    (main env lib c).exitCode = 0 := by
  rw [main_ok_trace env lib c args hp hb hf hr]
  exact ⟨rfl, rfl⟩

/-- C5 witness: the concrete all-paths-present run on c0 ends with the
SUCCESS line and exit code 0. -/
theorem C5_success_line_witness :
    parseArgs c0 = Except.ok args0 ∧
    envAll.pathExists args0.base_model = true ∧
    envAll.pathExists args0.finetuned = true ∧
    envAll.pathExists args0.reference_audio = true ∧
    ((main envAll lib0 c0).events.getLast? = some (Event.stderr "SUCCESS") ∧
     (main envAll lib0 c0).exitCode = 0) :=
  ⟨rfl, rfl, rfl, rfl, C5_success_line envAll lib0 c0 args0 rfl rfl rfl rfl⟩

/-- C7: the synthesis parameters reach the model's inference call exactly as
argument parsing produced them — the inference event carries the parsed
record's fields verbatim, and each parsed field is the supplied value (or
the declared default when the flag was omitted) with no range check,
clamping or rewriting in between. -/
theorem C7_params_passed_verbatim (env : Env) (lib : ExtLib) (c : CmdLine) (args : Args)
    (hp : parseArgs c = Except.ok args)
    (hb : env.pathExists args.base_model = true)
    (hf : env.pathExists args.finetuned = true)
    (hr : env.pathExists args.reference_audio = true) :
    Event.libInference args.text args.language args.temperature args.repetition_penalty
        args.top_k args.top_p ∈ (main env lib c).events ∧
    c.text? = some args.text ∧ args.language = c.language?.getD "cs" ∧
    args.temperature = c.temperature?.getD 0.75 ∧
    args.repetition_penalty = c.repetition_penalty?.getD 3.0 ∧
    args.top_k = c.top_k?.getD 50 ∧ args.top_p = c.top_p?.getD 0.85 := by
  obtain ⟨-, -, -, h4, -, h6, h7, h8, h9, h10, -, -⟩ := parseArgs_ok_fields hp
  refine ⟨?_, h4, h6, h7, h8, h9, h10⟩
  rw [main_ok_trace env lib c args hp hb hf hr]
  simp

/-- C7 witness: on the concrete command line c0 the inference event carries
exactly the parsed values, which are the declared defaults. -/
theorem C7_params_passed_verbatim_witness :
    parseArgs c0 = Except.ok args0 ∧
    envAll.pathExists args0.base_model = true ∧
    envAll.pathExists args0.finetuned = true ∧
    envAll.pathExists args0.reference_audio = true ∧
    (Event.libInference args0.text args0.language args0.temperature args0.repetition_penalty
        args0.top_k args0.top_p ∈ (main envAll lib0 c0).events ∧
     c0.text? = some args0.text ∧ args0.language = c0.language?.getD "cs" ∧
     args0.temperature = c0.temperature?.getD 0.75 ∧
     args0.repetition_penalty = c0.repetition_penalty?.getD 3.0 ∧
     args0.top_k = c0.top_k?.getD 50 ∧ args0.top_p = c0.top_p?.getD 0.85) :=
  ⟨rfl, rfl, rfl, rfl, C7_params_passed_verbatim envAll lib0 c0 args0 rfl rfl rfl rfl⟩

/-- C9: the output path is never validated before work begins — two
environments that agree on the three input paths but may differ arbitrarily
on every other path (in particular on the output path and its parent
directory) give identical runs; and whenever the three input paths exist,
the audio write (tag 3) happens only after the model-loading calls (tag 0),
the latent computation (tag 1) and the synthesis (tag 2) have all
completed. -/
theorem C9_output_path_not_validated (env env' : Env) (lib : ExtLib) (c : CmdLine)
    (args : Args) (hp : parseArgs c = Except.ok args)
    (hb : env.pathExists args.base_model = env'.pathExists args.base_model)
    (hf : env.pathExists args.finetuned = env'.pathExists args.finetuned)
    (hr : env.pathExists args.reference_audio = env'.pathExists args.reference_audio) :
    main env lib c = main env' lib c ∧
    (env.pathExists args.base_model = true → env.pathExists args.finetuned = true →
     env.pathExists args.reference_audio = true →
     stepTags (main env lib c).events = [0, 0, 0, 0, 0, 0, 0, 1, 2, 3]) := by
  constructor
  · unfold main
    simp only [hp, hb, hf, hr]
  · intro h1 h2 h3
    rw [main_ok_trace env lib c args hp h1 h2 h3]
    simp [stepTags, Event.stepTag]

/-- C9 witness: with the output path's parent directory absent (envOut) and
present (envAll), the concrete run on c9 is identical, and the write comes
after all expensive steps. -/
theorem C9_output_path_not_validated_witness :
    parseArgs c9 = Except.ok args9 ∧
    envOut.pathExists args9.base_model = envAll.pathExists args9.base_model ∧
    envOut.pathExists args9.finetuned = envAll.pathExists args9.finetuned ∧
    envOut.pathExists args9.reference_audio = envAll.pathExists args9.reference_audio ∧
    (main envOut lib0 c9 = main envAll lib0 c9 ∧
     (envOut.pathExists args9.base_model = true → envOut.pathExists args9.finetuned = true →
      envOut.pathExists args9.reference_audio = true →
      stepTags (main envOut lib0 c9).events = [0, 0, 0, 0, 0, 0, 0, 1, 2, 3])) :=
  ⟨rfl, by decide, by decide, by decide,
   C9_output_path_not_validated envOut envAll lib0 c9 args9 rfl (by decide) (by decide)
     (by decide)⟩

/-- C10: an invocation whose --device value is neither "cpu" nor "cuda" is
rejected by the argument parser before any path validation or model work:
the run performs no delegated step and exits with argparse's usage-error
code 2 (not the exit code 1 of the documented failure kinds) in every
environment and with every library; consequently every run that parses
successfully has device "cpu" or "cuda". -/
theorem C10_invalid_device_usage_error (env : Env) (lib : ExtLib) (c : CmdLine)
    (d : String) (hd : c.device? = some d) (h1 : d ≠ "cpu") (h2 : d ≠ "cuda") :
    main env lib c = { events := [], exitCode := 2 } ∧
    (main env lib c).exitCode ≠ 1 ∧
    (∀ (c' : CmdLine) (args' : Args), parseArgs c' = Except.ok args' →
      args'.device = "cpu" ∨ args'.device = "cuda") := by
  have hperr : parseArgs c = Except.error 2 := parseArgs_invalid_device hd h1 h2
  refine ⟨?_, ?_, ?_⟩
  · unfold main
    rw [hperr]
  · unfold main
    rw [hperr]
    simp
  · intro c' args' h
    exact (parseArgs_ok_fields h).2.2.2.2.2.2.2.2.2.2.2

/-- C10 witness: the concrete command line cBad with device "tpu" exits with
code 2 and produces no events even with every path present. -/
theorem C10_invalid_device_usage_error_witness :
    cBad.device? = some "tpu" ∧ "tpu" ≠ "cpu" ∧ "tpu" ≠ "cuda" ∧
    (main envAll lib0 cBad = { events := [], exitCode := 2 } ∧
     (main envAll lib0 cBad).exitCode ≠ 1 ∧
     (∀ (c' : CmdLine) (args' : Args), parseArgs c' = Except.ok args' →
       args'.device = "cpu" ∨ args'.device = "cuda")) :=
  ⟨rfl, by decide, by decide,
   C10_invalid_device_usage_error envAll lib0 cBad "tpu" rfl (by decide) (by decide)⟩

end XttsGenerate
